import Mathlib

/-!
Shallow embedding of the EasyIR Home Assistant integration, from
custom_components/easy_ir/climate.py and custom_components/easy_ir/media_player.py.

The per-device code tables are parsed JSON.  We model JSON values with
an inductive type covering the shapes that occur in code tables
(strings, arrays, objects, null); Python dictionaries become
association lists, which preserve insertion order, so that
`list(d.keys())[0]` becomes the head of the list.  Machine-level
concerns do not arise: every operation here is on strings, lists and
dictionaries.

Outcomes are made explicit: `SendResult.sent payload` is the single
outbound `remote.send_command` service call carrying the normalized
command list, `SendResult.noSend` is an early return with only a log
line (absence reported, nothing transmitted), and `SendResult.crash`
is an uncaught Python exception propagating to the caller.
-/

/-- JSON values appearing in a device code table. -/
inductive JsonVal where
  | null : JsonVal
  | str : String → JsonVal
  | arr : List JsonVal → JsonVal
  | obj : List (String × JsonVal) → JsonVal

/-- Python truthiness of a JSON value: None, an empty string, an empty
list and an empty dict are falsy; everything else here is truthy. -/
def truthy : JsonVal → Bool
  | JsonVal.null => false
  | JsonVal.str s => !(s == "")
  | JsonVal.arr l => !l.isEmpty
  | JsonVal.obj l => !l.isEmpty

/-- Python `d.get(k)` on a dict modelled as an association list:
the value of the first pair whose key matches, if any. -/
def dget (d : List (String × JsonVal)) (k : String) : Option JsonVal :=
  (d.find? fun p => p.1 == k).map fun p => p.2

/-- Python `k in d` on a dict: key membership. -/
def dmem (d : List (String × JsonVal)) (k : String) : Bool :=
  d.any fun p => p.1 == k

/-- Python `c.startswith(pre)`: the characters of `pre` are an initial
segment of the characters of `c`. -/
def startswith (c pre : String) : Bool :=
  pre.data.isPrefixOf c.data

/-- Python `needle in hay` when `hay` is a string: substring test. -/
def pyInStr (needle hay : String) : Bool :=
  (List.range (hay.data.length + 1)).any fun i => needle.data.isPrefixOf (hay.data.drop i)

/-- Outcome of one user-initiated request reaching the transmitter
layer: exactly one outbound service call with the given normalized
payload, an early return with nothing sent, or an uncaught exception. -/
inductive SendResult where
  | sent : List JsonVal → SendResult
  | noSend : SendResult
  | crash : SendResult

/-- Outcome of the code-resolution part of
EasyIRClimate._async_send_ir: the local `code` (or `command`) variable
was assigned this table value, or the method logged and returned
early, or an exception was raised during the traversal. -/
inductive Resolution where
  | found : JsonVal → Resolution
  | notFound : Resolution
  | crash : Resolution

/-- Home Assistant HVACMode values relevant to climate.py.
`heat_cool` stands for the HA modes absent from HVAC_MODES_MAP. -/
inductive HvacMode where
  | off | cool | heat | auto | dry | fan_only | heat_cool
deriving DecidableEq, Repr

/-- HVAC_MODES_INV_MAP from climate.py: the inverse of HVAC_MODES_MAP,
built by a dict comprehension in insertion order, so for FAN_ONLY the
later entry "fan_only" overwrites "fan".  Modes outside the map (here
`heat_cool`) give None, as `dict.get` does. -/
def HVAC_MODES_INV_MAP : HvacMode → Option String
  | HvacMode.off => some "off"
  | HvacMode.cool => some "cool"
  | HvacMode.heat => some "heat"
  | HvacMode.auto => some "auto"
  | HvacMode.dry => some "dry"
  | HvacMode.fan_only => some "fan_only"
  | HvacMode.heat_cool => none

namespace EasyIRClimate

/-- Body of the normalization loop in EasyIRClimate._send_command: a
string element lacking the "b64:" marker gets it prepended, any other
element is appended unchanged. -/
def b64fix : JsonVal → JsonVal
  | JsonVal.str c =>
      if startswith c "b64:" then JsonVal.str c else JsonVal.str ("b64:" ++ c)
  | v => v

/-- Python `for c in code` after the `if isinstance(code, str): code = [code]`
wrapper in _send_command: a string was wrapped into a one-element
list, a list iterates its elements, a dict iterates its keys, and
None is not iterable (TypeError). -/
def iterElems : JsonVal → Option (List JsonVal)
  | JsonVal.str s => some [JsonVal.str s]
  | JsonVal.arr l => some l
  | JsonVal.obj l => some (l.map fun p => JsonVal.str p.1)
  | JsonVal.null => none

/-- EasyIRClimate._send_command: wrap a bare string, normalize every
element with the "b64:" fix, and issue the single remote.send_command
call with the resulting list. -/
def send_command (code : JsonVal) : SendResult :=
  match iterElems code with
  | none => SendResult.crash
  | some cs => SendResult.sent (cs.map b64fix)

/-- Temperature-level step of EasyIRClimate._async_send_ir, after
`fan_key` has been resolved (lines 192-197): look `temp_key` up under
`commands[mode_key][fan_key]` and bind `code`.  When the fan-level
value is not a dict the Python `in` test and subsequent indexing give:
for a string, a substring hit then crashes indexing the string by a
string key (TypeError) while a miss logs and returns; for a list, a
membership hit crashes indexing the list by a string (TypeError)
while a miss logs and returns; for None, `in` itself raises
(TypeError).  The fan key is always present here, the `none` branch of
its lookup being unreachable. -/
def resolve_temp (fans : List (String × JsonVal)) (fan_key : String) (temp_key : String) :
    Resolution :=
  match dget fans fan_key with
  | none => Resolution.crash
  | some fanVal =>
    match fanVal with
    | JsonVal.obj temps =>
      match dget temps temp_key with
      | none => Resolution.notFound
      | some code => Resolution.found code
    | JsonVal.str s =>
      if pyInStr temp_key s then Resolution.crash else Resolution.notFound
    | JsonVal.arr l =>
      if l.any (fun x => match x with | JsonVal.str t => t == temp_key | _ => false) then
        Resolution.crash
      else Resolution.notFound
    | JsonVal.null => Resolution.crash

/-- Code-resolution part of EasyIRClimate._async_send_ir (lines
163-197).  OFF is handled first, via `commands.get("off")`, bypassing
the nested structure.  Otherwise the mode key is taken from
HVAC_MODES_INV_MAP (None never being a key, an unmapped mode logs
"Mode missing" and returns), the mode is looked up, a missing fan key
falls back to `list(commands[mode_key].keys())[0]` — which raises
IndexError when the mode's fan dict is empty — and the temperature
key `str(int(value))` is looked up last.  A non-dict value under the
mode key crashes on the `in` test, `.keys()` or string indexing
(TypeError or AttributeError) in every shape. -/
def resolve (commands : List (String × JsonVal)) (mode : HvacMode)
    (fan : String) (temp : Int) : Resolution :=
  if mode = HvacMode.off then
    match dget commands "off" with
    | some command => Resolution.found command
    | none => Resolution.notFound
  else
    match HVAC_MODES_INV_MAP mode with
    | none => Resolution.notFound
    | some mode_key =>
      match dget commands mode_key with
      | none => Resolution.notFound
      | some modeVal =>
        match modeVal with
        | JsonVal.obj fans =>
          if dmem fans fan then
            resolve_temp fans fan (toString temp)
          else
            match fans.head? with
            | none => Resolution.crash
            | some first => resolve_temp fans first.1 (toString temp)
        | _ => Resolution.crash

/-- EasyIRClimate._async_send_ir in full: resolve, then transmit the
found value when it is truthy (`if command:` in the OFF branch,
`if code:` after the nested traversal), otherwise log and return. -/
def async_send_ir (commands : List (String × JsonVal)) (mode : HvacMode)
    (fan : String) (temp : Int) : SendResult :=
  match resolve commands mode fan temp with
  | Resolution.found code =>
      if truthy code then send_command code else SendResult.noSend
  | Resolution.notFound => SendResult.noSend
  | Resolution.crash => SendResult.crash

/-- In-memory entity state driving _async_send_ir: the current hvac
mode, fan mode and target temperature attributes. -/
structure State where
  hvac_mode : HvacMode
  fan_mode : String
  target_temperature : Int

/-- EasyIRClimate.async_set_hvac_mode: assign the new mode to the
in-memory field first, then send; the field keeps the new value even
when resolution fails or transmission raises. -/
def async_set_hvac_mode (commands : List (String × JsonVal)) (s : State)
    (m : HvacMode) : State × SendResult :=
  let s2 : State := { s with hvac_mode := m }
  (s2, async_send_ir commands s2.hvac_mode s2.fan_mode s2.target_temperature)

/-- EasyIRClimate.async_set_temperature: when ATTR_TEMPERATURE is
present in kwargs, assign it first, then send; when absent, nothing
happens. -/
def async_set_temperature (commands : List (String × JsonVal)) (s : State)
    (temp : Option Int) : State × SendResult :=
  match temp with
  | none => (s, SendResult.noSend)
  | some t =>
    let s2 : State := { s with target_temperature := t }
    (s2, async_send_ir commands s2.hvac_mode s2.fan_mode s2.target_temperature)

/-- EasyIRClimate.async_set_fan_mode: assign the new fan mode first,
then send. -/
def async_set_fan_mode (commands : List (String × JsonVal)) (s : State)
    (fan : String) : State × SendResult :=
  let s2 : State := { s with fan_mode := fan }
  (s2, async_send_ir commands s2.hvac_mode s2.fan_mode s2.target_temperature)

end EasyIRClimate

namespace EasyIRMediaPlayer

/-- Body of the normalization loop in EasyIRMediaPlayer._send_raw_code,
textually identical in the source to the loop in
EasyIRClimate._send_command. -/
def b64fix : JsonVal → JsonVal
  | JsonVal.str c =>
      if startswith c "b64:" then JsonVal.str c else JsonVal.str ("b64:" ++ c)
  | v => v

/-- EasyIRMediaPlayer._send_raw_code: wrap a bare string, normalize
every element, issue the single remote.send_command call. -/
def send_raw_code (code : JsonVal) : SendResult :=
  let elems : Option (List JsonVal) :=
    match code with
    | JsonVal.str s => some [JsonVal.str s]
    | JsonVal.arr l => some l
    | JsonVal.obj l => some (l.map fun p => JsonVal.str p.1)
    | JsonVal.null => none
  match elems with
  | none => SendResult.crash
  | some cs => SendResult.sent (cs.map b64fix)

/-- Lookup part of EasyIRMediaPlayer._send_command (lines 141-144):
`code = commands.get(command_key)`, and when `not code` (the key
missed, or its value is falsy) and the key is "on", retry with
`commands.get("power")`. -/
def resolve_code (commands : List (String × JsonVal)) (command_key : String) :
    Option JsonVal :=
  let code := dget commands command_key
  if (match code with | none => true | some c => !truthy c) && command_key == "on" then
    dget commands "power"
  else code

/-- EasyIRMediaPlayer._send_command in full: look the key up (with the
on-to-power retry) and transmit when the result is truthy, otherwise
log a warning and return. -/
def send_command (commands : List (String × JsonVal)) (command_key : String) :
    SendResult :=
  match resolve_code commands command_key with
  | some c => if truthy c then send_raw_code c else SendResult.noSend
  | none => SendResult.noSend

/-- EasyIRMediaPlayer.async_turn_on: send the "on" command, then set
the in-memory state attribute to STATE_ON; an exception in the send
skips the assignment. -/
def async_turn_on (commands : List (String × JsonVal)) (state : String) :
    String × SendResult :=
  match send_command commands "on" with
  | SendResult.crash => (state, SendResult.crash)
  | r => ("on", r)

/-- EasyIRMediaPlayer.async_turn_off: send the "off" command, then set
the in-memory state attribute to STATE_OFF. -/
def async_turn_off (commands : List (String × JsonVal)) (state : String) :
    String × SendResult :=
  match send_command commands "off" with
  | SendResult.crash => (state, SendResult.crash)
  | r => ("off", r)

end EasyIRMediaPlayer

/-! Helper lemmas about the dictionary model. -/

/-- A key that is not a member looks up to nothing. -/
theorem dget_eq_none_of_dmem_eq_false (d : List (String × JsonVal)) (k : String)
    (h : dmem d k = false) : dget d k = none := by
  have hf : d.find? (fun p => p.1 == k) = none := by
    rw [List.find?_eq_none]
    rw [dmem, List.any_eq_false] at h
    exact h
  simp [dget, hf]

/-- Looking up the key of the head pair yields the head value. -/
theorem dget_cons_self (k : String) (v : JsonVal) (rest : List (String × JsonVal)) :
    dget ((k, v) :: rest) k = some v := by
  simp [dget, List.find?]

/-- The b64 marker heads any string it was just prepended to. -/
theorem startswith_b64_append (s : String) : startswith ("b64:" ++ s) "b64:" = true := by
  simp [startswith, String.data_append, List.isPrefixOf_iff_prefix, List.prefix_append]

/-! Claims. -/

/-- C1: the claim says the climate resolver never raises for any
table, explicitly including a mode whose fan mapping is empty.  The
code contradicts this (and its own "Validation to prevent crashes"
comment): for the table with commands mapping "cool" to an empty fan
dict, a request for (cool, low, 24) reaches the fallback
`list(commands[mode_key].keys())[0]`, which raises IndexError.  This
theorem evaluates the embedded _async_send_ir at that failing input. -/
theorem C1_empty_fan_mapping_crash :
    EasyIRClimate.async_send_ir [("cool", JsonVal.obj [])] HvacMode.cool "low" 24
      = SendResult.crash := rfl

/-- C2: when the requested fan key is absent but the mode is present
with at least one fan entry, the resolver substitutes the
enumeration-first fan entry, and when the temperature key exists under
it, resolution returns the code stored under (mode, first fan, value). -/
theorem C2_fan_fallback_first_entry
    (commands : List (String × JsonVal)) (mode : HvacMode) (mode_key fan f0 : String)
    (v0 : JsonVal) (rest temps : List (String × JsonVal)) (temp : Int) (code : JsonVal)
    (h1 : mode ≠ HvacMode.off)
    (h2 : HVAC_MODES_INV_MAP mode = some mode_key)
    (h3 : dget commands mode_key = some (JsonVal.obj ((f0, v0) :: rest)))
    (h4 : dmem ((f0, v0) :: rest) fan = false)
    (h5 : v0 = JsonVal.obj temps)
    (h6 : dget temps (toString temp) = some code) :
    EasyIRClimate.resolve commands mode fan temp = Resolution.found code := by
  subst h5
  simp [EasyIRClimate.resolve, EasyIRClimate.resolve_temp, h1, h2, h3, h4,
    dget_cons_self, h6]

/-- C2 witness: the spec scenario table with only fan "auto" under
"cool", requested with the absent fan "low". -/
theorem C2_fan_fallback_first_entry_witness :
    EasyIRClimate.resolve
      [("cool", JsonVal.obj [("auto", JsonVal.obj [("24", JsonVal.str "CCDD")])])]
      HvacMode.cool "low" 24 = Resolution.found (JsonVal.str "CCDD") :=
  C2_fan_fallback_first_entry
    [("cool", JsonVal.obj [("auto", JsonVal.obj [("24", JsonVal.str "CCDD")])])]
    HvacMode.cool "cool" "low" "auto" (JsonVal.obj [("24", JsonVal.str "CCDD")]) []
    [("24", JsonVal.str "CCDD")] 24 (JsonVal.str "CCDD")
    (by decide) rfl rfl rfl rfl rfl

/-- C3: when mode, fan and the stringified integer temperature are all
present in the table, resolution returns exactly the stored code
value, unchanged. -/
theorem C3_exact_hit_returns_stored_code
    (commands : List (String × JsonVal)) (mode : HvacMode) (mode_key fan : String)
    (fans temps : List (String × JsonVal)) (temp : Int) (code : JsonVal)
    (h1 : mode ≠ HvacMode.off)
    (h2 : HVAC_MODES_INV_MAP mode = some mode_key)
    (h3 : dget commands mode_key = some (JsonVal.obj fans))
    (h4 : dmem fans fan = true)
    (h5 : dget fans fan = some (JsonVal.obj temps))
    (h6 : dget temps (toString temp) = some code) :
    EasyIRClimate.resolve commands mode fan temp = Resolution.found code := by
  simp [EasyIRClimate.resolve, EasyIRClimate.resolve_temp, h1, h2, h3, h4, h5, h6]

/-- C3 witness: a full hit on (cool, auto, 24). -/
theorem C3_exact_hit_returns_stored_code_witness :
    EasyIRClimate.resolve
      [("cool", JsonVal.obj [("auto", JsonVal.obj [("24", JsonVal.str "EEFF")])])]
      HvacMode.cool "auto" 24 = Resolution.found (JsonVal.str "EEFF") :=
  C3_exact_hit_returns_stored_code
    [("cool", JsonVal.obj [("auto", JsonVal.obj [("24", JsonVal.str "EEFF")])])]
    HvacMode.cool "cool" "auto" [("auto", JsonVal.obj [("24", JsonVal.str "EEFF")])]
    [("24", JsonVal.str "EEFF")] 24 (JsonVal.str "EEFF")
    (by decide) rfl rfl rfl rfl rfl

/-- C4: with hvac mode off, the nested structure is bypassed: an
absent top-level "off" key means nothing is transmitted, a present one
is what resolution returns, and a present truthy one is exactly what
is handed to the transmitter. -/
theorem C4_off_entry_direct (commands : List (String × JsonVal)) (fan : String) (temp : Int) :
    (dget commands "off" = none →
      EasyIRClimate.async_send_ir commands HvacMode.off fan temp = SendResult.noSend)
  ∧ (∀ v, dget commands "off" = some v →
      EasyIRClimate.resolve commands HvacMode.off fan temp = Resolution.found v)
  ∧ (∀ v, dget commands "off" = some v → truthy v = true →
      EasyIRClimate.async_send_ir commands HvacMode.off fan temp
        = EasyIRClimate.send_command v) := by
  refine ⟨fun h => ?_, fun v h => ?_, fun v h ht => ?_⟩
  · simp [EasyIRClimate.async_send_ir, EasyIRClimate.resolve, h]
  · simp [EasyIRClimate.resolve, h]
  · simp [EasyIRClimate.async_send_ir, EasyIRClimate.resolve, h, ht]

/-- C4 witness: the empty table sends nothing for off; the spec
scenario table resolves off to its stored "AABB" and transmits it. -/
theorem C4_off_entry_direct_witness :
    EasyIRClimate.async_send_ir [] HvacMode.off "auto" 24 = SendResult.noSend
  ∧ EasyIRClimate.resolve [("off", JsonVal.str "AABB")] HvacMode.off "auto" 24
      = Resolution.found (JsonVal.str "AABB")
  ∧ EasyIRClimate.async_send_ir [("off", JsonVal.str "AABB")] HvacMode.off "auto" 24
      = EasyIRClimate.send_command (JsonVal.str "AABB") :=
  ⟨(C4_off_entry_direct [] "auto" 24).1 rfl,
   (C4_off_entry_direct [("off", JsonVal.str "AABB")] "auto" 24).2.1
     (JsonVal.str "AABB") rfl,
   (C4_off_entry_direct [("off", JsonVal.str "AABB")] "auto" 24).2.2
     (JsonVal.str "AABB") rfl rfl⟩

/-- C5: for a non-off request whose mode key is absent from the
commands mapping, resolution signals not-found and the outbound
send-command call is never made. -/
theorem C5_mode_missing_never_transmits
    (commands : List (String × JsonVal)) (mode : HvacMode) (mode_key fan : String)
    (temp : Int)
    (h1 : mode ≠ HvacMode.off)
    (h2 : HVAC_MODES_INV_MAP mode = some mode_key)
    (h3 : dmem commands mode_key = false) :
    EasyIRClimate.resolve commands mode fan temp = Resolution.notFound
  ∧ EasyIRClimate.async_send_ir commands mode fan temp = SendResult.noSend := by
  have h4 := dget_eq_none_of_dmem_eq_false commands mode_key h3
  constructor <;> simp [EasyIRClimate.async_send_ir, EasyIRClimate.resolve, h1, h2, h4]

/-- C5 witness: the spec scenario, requesting heat on a cool-only
table. -/
theorem C5_mode_missing_never_transmits_witness :
    EasyIRClimate.resolve
      [("cool", JsonVal.obj [("auto", JsonVal.obj [("24", JsonVal.str "EEFF")])])]
      HvacMode.heat "auto" 24 = Resolution.notFound
  ∧ EasyIRClimate.async_send_ir
      [("cool", JsonVal.obj [("auto", JsonVal.obj [("24", JsonVal.str "EEFF")])])]
      HvacMode.heat "auto" 24 = SendResult.noSend :=
  C5_mode_missing_never_transmits
    [("cool", JsonVal.obj [("auto", JsonVal.obj [("24", JsonVal.str "EEFF")])])]
    HvacMode.heat "heat" "auto" 24 (by decide) rfl rfl

/-- C6: a bare code string and the same string wrapped in a
one-element list produce identical normalized payloads, in both the
climate transmitter and the media-player transmitter. -/
theorem C6_string_equals_singleton_list (s : String) :
    EasyIRClimate.send_command (JsonVal.str s)
      = EasyIRClimate.send_command (JsonVal.arr [JsonVal.str s])
  ∧ EasyIRMediaPlayer.send_raw_code (JsonVal.str s)
      = EasyIRMediaPlayer.send_raw_code (JsonVal.arr [JsonVal.str s]) :=
  ⟨rfl, rfl⟩

/-- C7: the b64 transmission marker is applied exactly once by the
normalization step of both transmitters: a string already carrying it
passes through unchanged, a string lacking it gets exactly one copy
prepended, and normalizing an already-normalized string is the
identity. -/
theorem C7_b64_applied_exactly_once (s : String) :
    (startswith s "b64:" = true →
      EasyIRClimate.b64fix (JsonVal.str s) = JsonVal.str s)
  ∧ (startswith s "b64:" = false →
      EasyIRClimate.b64fix (JsonVal.str s) = JsonVal.str ("b64:" ++ s))
  ∧ EasyIRClimate.b64fix (EasyIRClimate.b64fix (JsonVal.str s))
      = EasyIRClimate.b64fix (JsonVal.str s)
  ∧ (startswith s "b64:" = true →
      EasyIRMediaPlayer.b64fix (JsonVal.str s) = JsonVal.str s)
  ∧ (startswith s "b64:" = false →
      EasyIRMediaPlayer.b64fix (JsonVal.str s) = JsonVal.str ("b64:" ++ s))
  ∧ EasyIRMediaPlayer.b64fix (EasyIRMediaPlayer.b64fix (JsonVal.str s))
      = EasyIRMediaPlayer.b64fix (JsonVal.str s) := by
  refine ⟨fun h => ?_, fun h => ?_, ?_, fun h => ?_, fun h => ?_, ?_⟩
  · simp [EasyIRClimate.b64fix, h]
  · simp [EasyIRClimate.b64fix, h]
  · by_cases h : startswith s "b64:"
    · simp [EasyIRClimate.b64fix, h]
    · simp [EasyIRClimate.b64fix, h, startswith_b64_append]
  · simp [EasyIRMediaPlayer.b64fix, h]
  · simp [EasyIRMediaPlayer.b64fix, h]
  · by_cases h : startswith s "b64:"
    · simp [EasyIRMediaPlayer.b64fix, h]
    · simp [EasyIRMediaPlayer.b64fix, h, startswith_b64_append]

/-- C7 witness: a marked and an unmarked concrete string through both
normalizers. -/
theorem C7_b64_applied_exactly_once_witness :
    EasyIRClimate.b64fix (JsonVal.str "b64:AA") = JsonVal.str "b64:AA"
  ∧ EasyIRClimate.b64fix (JsonVal.str "AA") = JsonVal.str ("b64:" ++ "AA")
  ∧ EasyIRMediaPlayer.b64fix (JsonVal.str "b64:AA") = JsonVal.str "b64:AA"
  ∧ EasyIRMediaPlayer.b64fix (JsonVal.str "AA") = JsonVal.str ("b64:" ++ "AA") :=
  ⟨(C7_b64_applied_exactly_once "b64:AA").1 (by decide),
   (C7_b64_applied_exactly_once "AA").2.1 (by decide),
   (C7_b64_applied_exactly_once "b64:AA").2.2.2.1 (by decide),
   (C7_b64_applied_exactly_once "AA").2.2.2.2.1 (by decide)⟩

/-- C8: a media-player lookup miss on the "on" action retries the
"power" key; when "power" holds a value, the resolved code is that
value, and when it is truthy it is what gets transmitted. -/
theorem C8_on_retries_power (commands : List (String × JsonVal)) (v : JsonVal)
    (h1 : dget commands "on" = none)
    (h2 : dget commands "power" = some v) :
    EasyIRMediaPlayer.resolve_code commands "on" = some v
  ∧ (truthy v = true →
      EasyIRMediaPlayer.send_command commands "on"
        = EasyIRMediaPlayer.send_raw_code v) := by
  constructor
  · simp [EasyIRMediaPlayer.resolve_code, h1, h2]
  · intro ht
    simp [EasyIRMediaPlayer.send_command, EasyIRMediaPlayer.resolve_code, h1, h2, ht]

/-- C8 witness: the spec scenario table holding only "power". -/
theorem C8_on_retries_power_witness :
    EasyIRMediaPlayer.resolve_code [("power", JsonVal.str "GGHH")] "on"
      = some (JsonVal.str "GGHH")
  ∧ EasyIRMediaPlayer.send_command [("power", JsonVal.str "GGHH")] "on"
      = EasyIRMediaPlayer.send_raw_code (JsonVal.str "GGHH") :=
  ⟨(C8_on_retries_power [("power", JsonVal.str "GGHH")] (JsonVal.str "GGHH") rfl rfl).1,
   (C8_on_retries_power [("power", JsonVal.str "GGHH")] (JsonVal.str "GGHH") rfl rfl).2 rfl⟩

/-- C9: after a user-initiated state change whose code resolution
fails (nothing was sent), the in-memory field still holds the newly
requested value: climate mode, temperature and fan updates are written
before the send, and the media-player turn-on/turn-off assignments
still run after a failed lookup because lookup misses return instead
of raising. -/
theorem C9_state_not_rolled_back (ccommands : List (String × JsonVal))
    (s : EasyIRClimate.State) (m : HvacMode) (t : Int) (f : String)
    (mcommands : List (String × JsonVal)) (mst : String) :
    ((EasyIRClimate.async_set_hvac_mode ccommands s m).2 = SendResult.noSend →
      (EasyIRClimate.async_set_hvac_mode ccommands s m).1.hvac_mode = m)
  ∧ ((EasyIRClimate.async_set_temperature ccommands s (some t)).2 = SendResult.noSend →
      (EasyIRClimate.async_set_temperature ccommands s (some t)).1.target_temperature = t)
  ∧ ((EasyIRClimate.async_set_fan_mode ccommands s f).2 = SendResult.noSend →
      (EasyIRClimate.async_set_fan_mode ccommands s f).1.fan_mode = f)
  ∧ ((EasyIRMediaPlayer.async_turn_on mcommands mst).2 = SendResult.noSend →
      (EasyIRMediaPlayer.async_turn_on mcommands mst).1 = "on")
  ∧ ((EasyIRMediaPlayer.async_turn_off mcommands mst).2 = SendResult.noSend →
      (EasyIRMediaPlayer.async_turn_off mcommands mst).1 = "off") := by
  refine ⟨fun _ => rfl, fun _ => rfl, fun _ => rfl, ?_, ?_⟩
  · intro h
    simp only [EasyIRMediaPlayer.async_turn_on] at h ⊢
    cases hr : EasyIRMediaPlayer.send_command mcommands "on" <;> simp_all
  · intro h
    simp only [EasyIRMediaPlayer.async_turn_off] at h ⊢
    cases hr : EasyIRMediaPlayer.send_command mcommands "off" <;> simp_all

/-- C9 witness: on an empty table every lookup misses, nothing is
sent, and the requested values are still in place afterwards. -/
theorem C9_state_not_rolled_back_witness :
    (EasyIRClimate.async_set_hvac_mode []
        { hvac_mode := HvacMode.off, fan_mode := "auto", target_temperature := 24 }
        HvacMode.cool).2 = SendResult.noSend
  ∧ (EasyIRClimate.async_set_hvac_mode []
        { hvac_mode := HvacMode.off, fan_mode := "auto", target_temperature := 24 }
        HvacMode.cool).1.hvac_mode = HvacMode.cool
  ∧ (EasyIRClimate.async_set_temperature []
        { hvac_mode := HvacMode.off, fan_mode := "auto", target_temperature := 24 }
        (some 25)).1.target_temperature = 25
  ∧ (EasyIRClimate.async_set_fan_mode []
        { hvac_mode := HvacMode.off, fan_mode := "auto", target_temperature := 24 }
        "low").1.fan_mode = "low"
  ∧ (EasyIRMediaPlayer.async_turn_on [] "off").2 = SendResult.noSend
  ∧ (EasyIRMediaPlayer.async_turn_on [] "off").1 = "on"
  ∧ (EasyIRMediaPlayer.async_turn_off [] "on").1 = "off" :=
  ⟨rfl,
   (C9_state_not_rolled_back []
     { hvac_mode := HvacMode.off, fan_mode := "auto", target_temperature := 24 }
     HvacMode.cool 25 "low" [] "off").1 rfl,
   (C9_state_not_rolled_back []
     { hvac_mode := HvacMode.off, fan_mode := "auto", target_temperature := 24 }
     HvacMode.cool 25 "low" [] "off").2.1 rfl,
   (C9_state_not_rolled_back []
     { hvac_mode := HvacMode.off, fan_mode := "auto", target_temperature := 24 }
     HvacMode.cool 25 "low" [] "off").2.2.1 rfl,
   rfl,
   (C9_state_not_rolled_back []
     { hvac_mode := HvacMode.off, fan_mode := "auto", target_temperature := 24 }
     HvacMode.cool 25 "low" [] "off").2.2.2.1 rfl,
   (C9_state_not_rolled_back []
     { hvac_mode := HvacMode.off, fan_mode := "auto", target_temperature := 24 }
     HvacMode.cool 25 "low" [] "on").2.2.2.2 rfl⟩

/-- C10: a resolved-but-falsy code value (empty string, empty list,
null) is never transmitted: the climate send gate and the media-player
send gate both test Python truthiness before calling out. -/
theorem C10_falsy_code_never_sent (ccommands : List (String × JsonVal)) (mode : HvacMode)
    (fan : String) (temp : Int) (v : JsonVal)
    (mcommands : List (String × JsonVal)) (key : String) :
    (EasyIRClimate.resolve ccommands mode fan temp = Resolution.found v →
      truthy v = false →
      EasyIRClimate.async_send_ir ccommands mode fan temp = SendResult.noSend)
  ∧ (EasyIRMediaPlayer.resolve_code mcommands key = some v →
      truthy v = false →
      EasyIRMediaPlayer.send_command mcommands key = SendResult.noSend) := by
  constructor
  · intro h ht
    simp [EasyIRClimate.async_send_ir, h, ht]
  · intro h ht
    simp [EasyIRMediaPlayer.send_command, h, ht]

/-- C10 witness: an empty-string off entry in a climate table and an
empty-list mute entry in a media table, neither transmitted. -/
theorem C10_falsy_code_never_sent_witness :
    EasyIRClimate.resolve [("off", JsonVal.str "")] HvacMode.off "auto" 24
      = Resolution.found (JsonVal.str "")
  ∧ EasyIRClimate.async_send_ir [("off", JsonVal.str "")] HvacMode.off "auto" 24
      = SendResult.noSend
  ∧ EasyIRMediaPlayer.resolve_code [("mute", JsonVal.arr [])] "mute"
      = some (JsonVal.arr [])
  ∧ EasyIRMediaPlayer.send_command [("mute", JsonVal.arr [])] "mute"
      = SendResult.noSend :=
  ⟨rfl,
   (C10_falsy_code_never_sent [("off", JsonVal.str "")] HvacMode.off "auto" 24
     (JsonVal.str "") [] "mute").1 rfl rfl,
   rfl,
   (C10_falsy_code_never_sent [("off", JsonVal.str "")] HvacMode.off "auto" 24
     (JsonVal.arr []) [("mute", JsonVal.arr [])] "mute").2 rfl rfl⟩
